import Mathlib

/-!
Verification development for `arcade/camera/static.py`: a shallow embedding
of the `_StaticCamera` class and its five construction helpers, together
with theorems settling the specification claims.

Modelling conventions:
* Python floats are modelled as exact rationals (`ℚ`).
* The window object and its GL context are an explicit state record
  (`Window`, `GLCtx`); methods that mutate them are state transformers.
* Each camera carries a numeric `id` standing for Python object identity,
  so that "the current camera is this instance" is expressible.
* `activate` additionally returns the list of camera ids on which `use()`
  was invoked (a ghost trace: one event per syntactic `use()` call site
  executed, in order).  The trace is instrumentation only; the `Window`
  state itself matches the Python attributes exactly.
* Functions imported from `arcade.camera.projection_functions` and
  `arcade.camera.data_types` are not part of the source under
  consideration; they are modelled from the spec and marked as such.
-/

/-- 2-component vector of rationals (pyglet `Vec2`). -/
structure Vec2 where
  x : ℚ
  y : ℚ
deriving DecidableEq, Repr

/-- 3-component vector of rationals (pyglet `Vec3`). -/
structure Vec3 where
  x : ℚ
  y : ℚ
  z : ℚ
deriving DecidableEq, Repr

/-- 4-component vector of rationals (pyglet `Vec4`). -/
structure Vec4 where
  x : ℚ
  y : ℚ
  z : ℚ
  w : ℚ
deriving DecidableEq, Repr

/-- 4x4 rational matrix, row major: `mRC` is the entry in row R, column C
(pyglet `Mat4`). -/
structure Mat4 where
  m00 : ℚ
  m01 : ℚ
  m02 : ℚ
  m03 : ℚ
  m10 : ℚ
  m11 : ℚ
  m12 : ℚ
  m13 : ℚ
  m20 : ℚ
  m21 : ℚ
  m22 : ℚ
  m23 : ℚ
  m30 : ℚ
  m31 : ℚ
  m32 : ℚ
  m33 : ℚ
deriving DecidableEq, Repr

/-- Matrix-vector product. -/
def Mat4.mulVec (M : Mat4) (v : Vec4) : Vec4 :=
  ⟨M.m00 * v.x + M.m01 * v.y + M.m02 * v.z + M.m03 * v.w,
   M.m10 * v.x + M.m11 * v.y + M.m12 * v.z + M.m13 * v.w,
   M.m20 * v.x + M.m21 * v.y + M.m22 * v.z + M.m23 * v.w,
   M.m30 * v.x + M.m31 * v.y + M.m32 * v.z + M.m33 * v.w⟩

/-- Matrix-matrix product (`A.mul B` applies `B` first, then `A`). -/
def Mat4.mul (A B : Mat4) : Mat4 :=
  ⟨A.m00 * B.m00 + A.m01 * B.m10 + A.m02 * B.m20 + A.m03 * B.m30,
   A.m00 * B.m01 + A.m01 * B.m11 + A.m02 * B.m21 + A.m03 * B.m31,
   A.m00 * B.m02 + A.m01 * B.m12 + A.m02 * B.m22 + A.m03 * B.m32,
   A.m00 * B.m03 + A.m01 * B.m13 + A.m02 * B.m23 + A.m03 * B.m33,
   A.m10 * B.m00 + A.m11 * B.m10 + A.m12 * B.m20 + A.m13 * B.m30,
   A.m10 * B.m01 + A.m11 * B.m11 + A.m12 * B.m21 + A.m13 * B.m31,
   A.m10 * B.m02 + A.m11 * B.m12 + A.m12 * B.m22 + A.m13 * B.m32,
   A.m10 * B.m03 + A.m11 * B.m13 + A.m12 * B.m23 + A.m13 * B.m33,
   A.m20 * B.m00 + A.m21 * B.m10 + A.m22 * B.m20 + A.m23 * B.m30,
   A.m20 * B.m01 + A.m21 * B.m11 + A.m22 * B.m21 + A.m23 * B.m31,
   A.m20 * B.m02 + A.m21 * B.m12 + A.m22 * B.m22 + A.m23 * B.m32,
   A.m20 * B.m03 + A.m21 * B.m13 + A.m22 * B.m23 + A.m23 * B.m33,
   A.m30 * B.m00 + A.m31 * B.m10 + A.m32 * B.m20 + A.m33 * B.m30,
   A.m30 * B.m01 + A.m31 * B.m11 + A.m32 * B.m21 + A.m33 * B.m31,
   A.m30 * B.m02 + A.m31 * B.m12 + A.m32 * B.m22 + A.m33 * B.m32,
   A.m30 * B.m03 + A.m31 * B.m13 + A.m32 * B.m23 + A.m33 * B.m33⟩

/-- The identity matrix. -/
def Mat4.identity : Mat4 :=
  ⟨1, 0, 0, 0,
   0, 1, 0, 0,
   0, 0, 1, 0,
   0, 0, 0, 1⟩

/-- A pixel rectangle `(x, y, width, height)` of integers, the
`Tuple[int, int, int, int]` viewport of the source. -/
structure Viewport where
  x : ℤ
  y : ℤ
  w : ℤ
  h : ℤ
deriving DecidableEq, Repr

/-- Python exceptions raised by the embedded code. -/
inductive PyErr where
  | valueError (msg : String)
  | indexError
deriving DecidableEq, Repr

/-- Type of the injected `project_method` function references:
`(Vec3, viewport, view, projection) -> Vec2`. -/
abbrev ProjFnT := Vec3 → Viewport → Mat4 → Mat4 → Vec2

/-- Type of the injected `unproject_method` function references:
`(Vec2, viewport, view, projection, Optional[float]) -> Vec3`. -/
abbrev UnprojFnT := Vec2 → Viewport → Mat4 → Mat4 → Option ℚ → Vec3

/-- The `_StaticCamera` object state: the fields assigned in `__init__`.
`id` stands for Python object identity.  The window back-reference is not
stored in the record; operations take the window state explicitly. -/
structure Camera where
  id : Nat
  viewport : Viewport
  view : Mat4
  projection : Mat4
  projectMethod : Option ProjFnT
  unprojectMethod : Option UnprojFnT

/-- The GL context fields of the window (`window.ctx`) that the source
reads or writes: `viewport`, `projection_matrix`, `view_matrix`, and the
`current_camera` slot read by `activate`. -/
structure GLCtx where
  viewport : Viewport
  projection_matrix : Mat4
  view_matrix : Mat4
  current_camera : Camera

/-- The window state: the `current_camera` attribute written by `use`,
the GL context, and `other`, an abstract stand-in for all remaining
window/context state (used to state frame conditions). -/
structure Window where
  current_camera : Camera
  ctx : GLCtx
  other : ℤ

/-- `_StaticCamera.use`: sets `self._win.current_camera = self` and
overwrites `ctx.viewport`, `ctx.projection_matrix`, `ctx.view_matrix`
with the camera's stored values. -/
def Camera.use (c : Camera) (w : Window) : Window :=
  { w with
    current_camera := c,
    ctx := { w.ctx with
             viewport := c.viewport,
             projection_matrix := c.projection,
             view_matrix := c.view } }

/-- A scope body for `activate`: given the window state after entry it
produces the state at scope exit, whether the body raised, and the ghost
trace of camera ids on which the body itself invoked `use()`. -/
abbrev Body := Window → Window × Bool × List Nat

/-- `_StaticCamera.activate`: records `prev = self._win.ctx.current_camera`,
runs `self.use()`, yields to the body, and in the `finally` block runs
`prev.use()` — on the normal and the raising path alike.  Returns the
final window state, whether the body raised (the exception propagates
after the `finally` block), and the ghost trace of `use()` invocations:
the entry `self.use()`, then the body's own trace, then the single
restoring `prev.use()`. -/
def Camera.activate (c : Camera) (body : Body) (w : Window) :
    Window × Bool × List Nat :=
  let prev := w.ctx.current_camera
  let w1 := c.use w
  let r := body w1
  (prev.use r.1, r.2.1, [c.id] ++ r.2.2 ++ [prev.id])

/-- `_StaticCamera.project`: raises `ValueError` when no project method
was supplied; otherwise indexes `world_coordinate[0]`, `[1]`, `[2]`
(raising `IndexError` when the tuple is too short), applies the stored
method, and returns `(pos.x, pos.y)`.  The camera and window are threaded
through and returned so that absence of mutation is a stated fact. -/
def Camera.project (c : Camera) (w : Window) (world_coordinate : List ℚ) :
    (Except PyErr (ℚ × ℚ)) × Camera × Window :=
  match c.projectMethod with
  | none =>
      (.error (.valueError
        "This Static Camera was not provided a project method at creation"),
       c, w)
  | some f =>
      match world_coordinate.get? 0, world_coordinate.get? 1,
            world_coordinate.get? 2 with
      | some px, some py, some pz =>
          let pos := f ⟨px, py, pz⟩ c.viewport c.view c.projection
          (.ok (pos.x, pos.y), c, w)
      | _, _, _ => (.error .indexError, c, w)

/-- `_StaticCamera.unproject`: raises `ValueError` when no unproject
method was supplied; otherwise applies the stored method to the screen
coordinate and optional depth and returns `(pos.x, pos.y, pos.z)`. -/
def Camera.unproject (c : Camera) (w : Window)
    (screen_coordinate : ℚ × ℚ) (depth : Option ℚ) :
    (Except PyErr (ℚ × ℚ × ℚ)) × Camera × Window :=
  match c.unprojectMethod with
  | none =>
      (.error (.valueError
        "This Static Camera was not provided an unproject method at creation"),
       c, w)
  | some f =>
      let pos := f ⟨screen_coordinate.1, screen_coordinate.2⟩
                   c.viewport c.view c.projection depth
      (.ok (pos.x, pos.y, pos.z), c, w)

/-- `_StaticCamera.__init__`: stores the matrices and method references;
the viewport defaults to `self._win.ctx.viewport` when the argument is
`None` (`viewport or self._win.ctx.viewport`; a supplied 4-tuple is always
truthy).  The window argument is the already-resolved window
(`window or get_window()` resolves the process-wide registry outside this
model). -/
def mkStaticCamera (id : Nat) (view_matrix projection_matrix : Mat4)
    (viewport : Option Viewport)
    (project_method : Option ProjFnT) (unproject_method : Option UnprojFnT)
    (w : Window) : Camera :=
  { id := id,
    viewport := viewport.getD w.ctx.viewport,
    view := view_matrix,
    projection := projection_matrix,
    projectMethod := project_method,
    unprojectMethod := unproject_method }

/-- Modelled from the spec (`arcade.camera.data_types.CameraData` is not
part of the source under consideration): a camera pose — position, up
vector, forward vector, zoom scalar. -/
structure CameraData where
  position : Vec3
  up : Vec3
  forward : Vec3
  zoom : ℚ

/-- Modelled from the spec (`arcade.camera.data_types.OrthographicProjectionData`
is not part of the source under consideration): orthographic bounds
(left, right, bottom, top, near, far) plus a viewport; the spec's
defaulting policy requires the viewport to be omissible, so it is an
`Option`. -/
structure OrthographicProjectionData where
  left : ℚ
  right : ℚ
  bottom : ℚ
  top : ℚ
  near : ℚ
  far : ℚ
  viewport : Option Viewport

/-- Modelled from the spec (`arcade.camera.data_types.PerspectiveProjectionData`
is not part of the source under consideration): aspect, fov, near, far,
plus a viewport. -/
structure PerspectiveProjectionData where
  aspect : ℚ
  fov : ℚ
  near : ℚ
  far : ℚ
  viewport : Option Viewport

/-- Cross product of 3-vectors. -/
def Vec3.cross (a b : Vec3) : Vec3 :=
  ⟨a.y * b.z - a.z * b.y, a.z * b.x - a.x * b.z, a.x * b.y - a.y * b.x⟩

/-- Dot product of 3-vectors. -/
def Vec3.dot (a b : Vec3) : ℚ :=
  a.x * b.x + a.y * b.y + a.z * b.z

/-- Modelled from the spec (`generate_view_matrix` of
`arcade.camera.projection_functions` is not part of the source under
consideration): derives the world-to-camera matrix from a pose as the
standard look-at construction — rows are the right, up and negated
forward directions with the corresponding translation; the default pose
(position 0, up +Y, forward -Z, zoom 1) yields the identity, as the spec
requires. -/
def generate_view_matrix (c : CameraData) : Mat4 :=
  let fo := c.forward
  let up := c.up
  let ri := fo.cross up
  ⟨ri.x, ri.y, ri.z, -(ri.dot c.position),
   up.x, up.y, up.z, -(up.dot c.position),
   -fo.x, -fo.y, -fo.z, fo.dot c.position,
   0, 0, 0, 1⟩

/-- Modelled from the spec (`generate_orthographic_matrix` is not part of
the source under consideration): the standard orthographic projection
matrix for the descriptor's bounds scaled by (divided through) the zoom,
mapping the box onto the [-1, 1] cube. -/
def generate_orthographic_matrix (o : OrthographicProjectionData)
    (zoom : ℚ) : Mat4 :=
  let l := o.left / zoom
  let r := o.right / zoom
  let b := o.bottom / zoom
  let t := o.top / zoom
  let n := o.near
  let f := o.far
  ⟨2 / (r - l), 0, 0, -(r + l) / (r - l),
   0, 2 / (t - b), 0, -(t + b) / (t - b),
   0, 0, -2 / (f - n), -(f + n) / (f - n),
   0, 0, 0, 1⟩

/-- Modelled from the spec (`generate_perspective_matrix` is not part of
the source under consideration): the standard right-handed perspective
matrix from aspect, fov (scaled by zoom), near and far.  The tangent of
the half field-of-view is irrational in general; it is represented here
by the fixed rational surrogate `x / 45` (exact at 45 degrees).  No claim
in this development depends on the matrix's entries. -/
def generate_perspective_matrix (p : PerspectiveProjectionData)
    (zoom : ℚ) : Mat4 :=
  let fov := p.fov / zoom
  let tanHalf := (fov / 2) / 45
  let sy := 1 / tanHalf
  let sx := sy / p.aspect
  let n := p.near
  let f := p.far
  ⟨sx, 0, 0, 0,
   0, sy, 0, 0,
   0, 0, (f + n) / (n - f), 2 * f * n / (n - f),
   0, 0, -1, 0⟩

/-- 3x3 determinant of the listed entries (row by row). -/
def det3 (a b c d e f g h i : ℚ) : ℚ :=
  a * (e * i - f * h) - b * (d * i - f * g) + c * (d * h - e * g)

/-- Determinant of a 4x4 matrix (Laplace expansion along the first row). -/
def Mat4.det (M : Mat4) : ℚ :=
  M.m00 * det3 M.m11 M.m12 M.m13 M.m21 M.m22 M.m23 M.m31 M.m32 M.m33
  - M.m01 * det3 M.m10 M.m12 M.m13 M.m20 M.m22 M.m23 M.m30 M.m32 M.m33
  + M.m02 * det3 M.m10 M.m11 M.m13 M.m20 M.m21 M.m23 M.m30 M.m31 M.m33
  - M.m03 * det3 M.m10 M.m11 M.m12 M.m20 M.m21 M.m22 M.m30 M.m31 M.m32

/-- Explicit inverse of a 4x4 matrix by the adjugate-over-determinant
formula (entry (i, j) is the (j, i) cofactor divided by the determinant);
the computable counterpart of pyglet's `Mat4.__invert__`. -/
def Mat4.inv (M : Mat4) : Mat4 :=
  let d := M.det
  let c00 := det3 M.m11 M.m12 M.m13 M.m21 M.m22 M.m23 M.m31 M.m32 M.m33
  let c01 := -det3 M.m10 M.m12 M.m13 M.m20 M.m22 M.m23 M.m30 M.m32 M.m33
  let c02 := det3 M.m10 M.m11 M.m13 M.m20 M.m21 M.m23 M.m30 M.m31 M.m33
  let c03 := -det3 M.m10 M.m11 M.m12 M.m20 M.m21 M.m22 M.m30 M.m31 M.m32
  let c10 := -det3 M.m01 M.m02 M.m03 M.m21 M.m22 M.m23 M.m31 M.m32 M.m33
  let c11 := det3 M.m00 M.m02 M.m03 M.m20 M.m22 M.m23 M.m30 M.m32 M.m33
  let c12 := -det3 M.m00 M.m01 M.m03 M.m20 M.m21 M.m23 M.m30 M.m31 M.m33
  let c13 := det3 M.m00 M.m01 M.m02 M.m20 M.m21 M.m22 M.m30 M.m31 M.m32
  let c20 := det3 M.m01 M.m02 M.m03 M.m11 M.m12 M.m13 M.m31 M.m32 M.m33
  let c21 := -det3 M.m00 M.m02 M.m03 M.m10 M.m12 M.m13 M.m30 M.m32 M.m33
  let c22 := det3 M.m00 M.m01 M.m03 M.m10 M.m11 M.m13 M.m30 M.m31 M.m33
  let c23 := -det3 M.m00 M.m01 M.m02 M.m10 M.m11 M.m12 M.m30 M.m31 M.m32
  let c30 := -det3 M.m01 M.m02 M.m03 M.m11 M.m12 M.m13 M.m21 M.m22 M.m23
  let c31 := det3 M.m00 M.m02 M.m03 M.m10 M.m12 M.m13 M.m20 M.m22 M.m23
  let c32 := -det3 M.m00 M.m01 M.m03 M.m10 M.m11 M.m13 M.m20 M.m21 M.m23
  let c33 := det3 M.m00 M.m01 M.m02 M.m10 M.m11 M.m12 M.m20 M.m21 M.m22
  ⟨c00 / d, c10 / d, c20 / d, c30 / d,
   c01 / d, c11 / d, c21 / d, c31 / d,
   c02 / d, c12 / d, c22 / d, c32 / d,
   c03 / d, c13 / d, c23 / d, c33 / d⟩

/-- Modelled from the spec (`project_orthographic` is not part of the
source under consideration): applies view then projection to the world
point, then maps the clip x, y from [-1, 1] onto the viewport pixel
rectangle. -/
def project_orthographic (p : Vec3) (vp : Viewport) (V P : Mat4) : Vec2 :=
  let c := P.mulVec (V.mulVec ⟨p.x, p.y, p.z, 1⟩)
  ⟨(vp.x : ℚ) + (c.x + 1) / 2 * (vp.w : ℚ),
   (vp.y : ℚ) + (c.y + 1) / 2 * (vp.h : ℚ)⟩

/-- Modelled from the spec (`unproject_orthographic` is not part of the
source under consideration): maps the pixel coordinate back to clip x, y,
takes the depth argument (default 0) as the clip-space z, and applies the
inverse of the combined projection-view matrix — it "reverses the effects
of the projector". -/
def unproject_orthographic (s : Vec2) (vp : Viewport) (V P : Mat4)
    (depth : Option ℚ) : Vec3 :=
  let dz := depth.getD 0
  let nx := 2 * (s.x - (vp.x : ℚ)) / (vp.w : ℚ) - 1
  let ny := 2 * (s.y - (vp.y : ℚ)) / (vp.h : ℚ) - 1
  let wpos := (Mat4.mul P V).inv.mulVec ⟨nx, ny, dz, 1⟩
  ⟨wpos.x, wpos.y, wpos.z⟩

/-- Modelled from the spec (`project_perspective` is not part of the
source under consideration): like the orthographic version, with the
perspective divide by the clip w before the viewport mapping. -/
def project_perspective (p : Vec3) (vp : Viewport) (V P : Mat4) : Vec2 :=
  let c := P.mulVec (V.mulVec ⟨p.x, p.y, p.z, 1⟩)
  ⟨(vp.x : ℚ) + (c.x / c.w + 1) / 2 * (vp.w : ℚ),
   (vp.y : ℚ) + (c.y / c.w + 1) / 2 * (vp.h : ℚ)⟩

/-- Modelled from the spec (`unproject_perspective` is not part of the
source under consideration): inverse of the perspective pipeline — clip
coordinates from the pixel position and the depth argument, inverse
combined matrix, then division by the recovered w. -/
def unproject_perspective (s : Vec2) (vp : Viewport) (V P : Mat4)
    (depth : Option ℚ) : Vec3 :=
  let dz := depth.getD 0
  let nx := 2 * (s.x - (vp.x : ℚ)) / (vp.w : ℚ) - 1
  let ny := 2 * (s.y - (vp.y : ℚ)) / (vp.h : ℚ) - 1
  let q := (Mat4.mul P V).inv.mulVec ⟨nx, ny, dz, 1⟩
  ⟨q.x / q.w, q.y / q.w, q.z / q.w⟩

/-- `static_from_orthographic`: view matrix from the pose, projection
matrix from the orthographic descriptor and the pose's zoom, viewport
from the descriptor, orthographic project/unproject pair. -/
def static_from_orthographic (id : Nat) (view : CameraData)
    (orthographic : OrthographicProjectionData) (w : Window) : Camera :=
  mkStaticCamera id
    (generate_view_matrix view)
    (generate_orthographic_matrix orthographic view.zoom)
    orthographic.viewport
    (some project_orthographic) (some unproject_orthographic) w

/-- `static_from_perspective`: as in the source, the projection matrix is
produced by `generate_orthographic_matrix` applied to the
perspective-shaped descriptor (annotated `OrthographicProjectionData` in
the source), while the perspective project/unproject pair is bound. -/
def static_from_perspective (id : Nat) (view : CameraData)
    (perspective : OrthographicProjectionData) (w : Window) : Camera :=
  mkStaticCamera id
    (generate_view_matrix view)
    (generate_orthographic_matrix perspective view.zoom)
    perspective.viewport
    (some project_perspective) (some unproject_perspective) w

/-- `static_from_raw_orthographic`: builds the pose and descriptor from
raw scalars — the descriptor's viewport is `viewport or (0, 0, 0, 0)` —
and passes the original optional `viewport` to the camera constructor. -/
def static_from_raw_orthographic (id : Nat) (projection : ℚ × ℚ × ℚ × ℚ)
    (near far zoom : ℚ) (position up forward : Vec3)
    (viewport : Option Viewport) (w : Window) : Camera :=
  let view := generate_view_matrix ⟨position, up, forward, zoom⟩
  let proj := generate_orthographic_matrix
    ⟨projection.1, projection.2.1, projection.2.2.1, projection.2.2.2,
     near, far, some (viewport.getD ⟨0, 0, 0, 0⟩)⟩ zoom
  mkStaticCamera id view proj viewport
    (some project_orthographic) (some unproject_orthographic) w

/-- `static_from_raw_perspective`: symmetric to the raw orthographic
helper, with `generate_perspective_matrix` and the perspective pair. -/
def static_from_raw_perspective (id : Nat) (aspect fov : ℚ)
    (near far zoom : ℚ) (position up forward : Vec3)
    (viewport : Option Viewport) (w : Window) : Camera :=
  let view := generate_view_matrix ⟨position, up, forward, zoom⟩
  let proj := generate_perspective_matrix
    ⟨aspect, fov, near, far, some (viewport.getD ⟨0, 0, 0, 0⟩)⟩ zoom
  mkStaticCamera id view proj viewport
    (some project_perspective) (some unproject_perspective) w

/-- `static_from_matrices`: passes the prebuilt matrices, the optional
viewport, and the optional method references straight through. -/
def static_from_matrices (id : Nat) (view projection : Mat4)
    (viewport : Option Viewport) (w : Window)
    (project_method : Option ProjFnT)
    (unproject_method : Option UnprojFnT) : Camera :=
  mkStaticCamera id view projection viewport project_method
    unproject_method w

/-- A sample camera with no project/unproject methods, standing for an
arbitrary previously-current camera. -/
def camP : Camera :=
  ⟨3, ⟨0, 0, 800, 600⟩, Mat4.identity, Mat4.identity, none, none⟩

/-- A sample camera carrying the orthographic method pair. -/
def camA : Camera :=
  ⟨1, ⟨0, 0, 800, 600⟩, Mat4.identity, Mat4.identity,
   some project_orthographic, some unproject_orthographic⟩

/-- A second sample camera, distinguishable from the others by id. -/
def camB : Camera :=
  ⟨2, ⟨5, 5, 10, 10⟩, Mat4.identity, Mat4.identity, none, none⟩

/-- A sample window whose context viewport is `(0, 0, 800, 600)` and whose
context current-camera slot holds `camP`. -/
def win0 : Window :=
  ⟨camA, ⟨⟨0, 0, 800, 600⟩, Mat4.identity, Mat4.identity, camP⟩, 0⟩

/-- A sample window whose context viewport is the nonzero rectangle
`(1, 2, 3, 4)`. -/
def winVP : Window :=
  ⟨camA, ⟨⟨1, 2, 3, 4⟩, Mat4.identity, Mat4.identity, camP⟩, 0⟩

/-- Like `win0` but with `camB` in the context current-camera slot; it
agrees with `win0` on the window current camera, the context viewport,
both context matrices, and the abstract remaining state. -/
def winQ : Window :=
  ⟨camA, ⟨⟨0, 0, 800, 600⟩, Mat4.identity, Mat4.identity, camB⟩, 0⟩

/-- The scope body that does nothing. -/
def idBody : Body := fun t => (t, false, [])

/-- One invocation of a `_StaticCamera` method, for stating lifetime
invariants over arbitrary call sequences. -/
inductive CamOp where
  | useOp : CamOp
  | activateOp : Body → CamOp
  | projectOp : List ℚ → CamOp
  | unprojectOp : (ℚ × ℚ) → Option ℚ → CamOp

/-- Run one method invocation, threading the camera record and the window
state (each method's effect on both is exactly the embedded method's). -/
def stepOp (cw : Camera × Window) : CamOp → Camera × Window
  | .useOp => (cw.1, cw.1.use cw.2)
  | .activateOp b => (cw.1, (cw.1.activate b cw.2).1)
  | .projectOp wc =>
      ((cw.1.project cw.2 wc).2.1, (cw.1.project cw.2 wc).2.2)
  | .unprojectOp sc d =>
      ((cw.1.unproject cw.2 sc d).2.1, (cw.1.unproject cw.2 sc d).2.2)

/-- Run a sequence of method invocations. -/
def runOps (cw : Camera × Window) (ops : List CamOp) : Camera × Window :=
  ops.foldl stepOp cw

/-- A camera built by `static_from_orthographic` — so it carries the
matching orthographic project/unproject pair — from a rotated pose
(forward along -X) over the unit orthographic box and a 2x2 viewport. -/
def camR : Camera :=
  static_from_orthographic 9 ⟨⟨0, 0, 0⟩, ⟨0, 1, 0⟩, ⟨-1, 0, 0⟩, 1⟩
    ⟨-1, 1, -1, 1, -1, 1, some ⟨0, 0, 2, 2⟩⟩ win0

theorem project_preserves_camera_and_window
    (c : Camera) (w : Window) (wc : List ℚ) :
    (c.project w wc).2.1 = c ∧ (c.project w wc).2.2 = w := by
  unfold Camera.project
  cases c.projectMethod with
  | none => exact ⟨rfl, rfl⟩
  | some f =>
      cases wc.get? 0 <;> cases wc.get? 1 <;> cases wc.get? 2 <;>
        exact ⟨rfl, rfl⟩

theorem unproject_preserves_camera_and_window
    (c : Camera) (w : Window) (sc : ℚ × ℚ) (d : Option ℚ) :
    (c.unproject w sc d).2.1 = c ∧ (c.unproject w sc d).2.2 = w := by
  unfold Camera.unproject
  cases c.unprojectMethod <;> exact ⟨rfl, rfl⟩

theorem stepOp_fst (cw : Camera × Window) (op : CamOp) :
    (stepOp cw op).1 = cw.1 := by
  cases op with
  | useOp => rfl
  | activateOp b => rfl
  | projectOp wc => exact (project_preserves_camera_and_window _ _ _).1
  | unprojectOp sc d =>
      exact (unproject_preserves_camera_and_window _ _ _ _).1

theorem runOps_fst (ops : List CamOp) :
    ∀ cw : Camera × Window, (runOps cw ops).1 = cw.1 := by
  induction ops with
  | nil => intro cw; rfl
  | cons op ops ih =>
      intro cw
      have h1 : runOps cw (op :: ops) = runOps (stepOp cw op) ops := rfl
      rw [h1, ih, stepOp_fst]

/-- C1: exiting `activate()` — normally or raising — restores the camera
`P` held in the context's current-camera slot on entry: the final state
arises from the body's exit state by exactly the single restoring
`P.use()` (the trace appended after the body's own trace is exactly
`[P.id]`), the restored window current camera is `P` on both exit paths,
and in particular running `B.use()` inside `A.activate()` leaves the
current camera at `P` after the scope. -/
theorem activate_restores_previous_camera
    (A : Camera) (body : Body) (w : Window) :
    A.activate body w =
      ((w.ctx.current_camera).use (body (A.use w)).1,
       (body (A.use w)).2.1,
       [A.id] ++ (body (A.use w)).2.2 ++ [w.ctx.current_camera.id]) ∧
    (A.activate body w).1.current_camera = w.ctx.current_camera ∧
    (∀ B : Camera,
      (A.activate (fun t => (B.use t, false, [B.id])) w).1.current_camera
        = w.ctx.current_camera) :=
  ⟨rfl, rfl, fun _ => rfl⟩

/-- C2: a `_StaticCamera` constructed without a project method
(respectively without an unproject method) raises the unconfigured-
transform `ValueError` from `project` (respectively `unproject`), and the
call returns the camera and the window state unchanged. -/
theorem unconfigured_project_unproject_raise
    (id : Nat) (vm pm : Mat4) (vp : Option Viewport) (win w : Window)
    (umf : Option UnprojFnT) (pmf : Option ProjFnT)
    (wc : List ℚ) (sc : ℚ × ℚ) (d : Option ℚ) :
    (mkStaticCamera id vm pm vp none umf win).project w wc =
      (.error (.valueError
        "This Static Camera was not provided a project method at creation"),
       mkStaticCamera id vm pm vp none umf win, w) ∧
    (mkStaticCamera id vm pm vp pmf none win).unproject w sc d =
      (.error (.valueError
        "This Static Camera was not provided an unproject method at creation"),
       mkStaticCamera id vm pm vp pmf none win, w) :=
  ⟨rfl, rfl⟩

/-- C3 counterexample: calling `static_from_raw_orthographic` with no
viewport on a window whose context viewport is `(1, 2, 3, 4)` produces a
camera whose stored viewport is the context viewport, not the zero
rectangle `(0, 0, 0, 0)` the claim predicts. -/
theorem raw_orthographic_viewport_defaults_to_ctx_not_zero :
    (static_from_raw_orthographic 7 (0, 800, 0, 600) (-100) 100 1
      ⟨0, 0, 0⟩ ⟨0, 1, 0⟩ ⟨0, 0, -1⟩ none winVP).viewport = ⟨1, 2, 3, 4⟩ ∧
    (static_from_raw_orthographic 7 (0, 800, 0, 600) (-100) 100 1
      ⟨0, 0, 0⟩ ⟨0, 1, 0⟩ ⟨0, 0, -1⟩ none winVP).viewport ≠ ⟨0, 0, 0, 0⟩ :=
  ⟨rfl, by decide⟩

/-- C3 amended: when the viewport is absent (a `None` argument, or a
descriptor carrying none), all five helpers store the target context's
current viewport on the camera; the zero rectangle `(0, 0, 0, 0)` is only
substituted into the internally built projection descriptor of the two
raw-parameter helpers. -/
theorem helper_viewport_defaulting
    (id : Nat) (v : CameraData) (l r b t n f : ℚ)
    (proj4 : ℚ × ℚ × ℚ × ℚ) (near far zoom aspect fov : ℚ)
    (pos up fwd : Vec3) (vm pm : Mat4)
    (pmf : Option ProjFnT) (umf : Option UnprojFnT) (w : Window) :
    (static_from_orthographic id v ⟨l, r, b, t, n, f, none⟩ w).viewport
      = w.ctx.viewport ∧
    (static_from_perspective id v ⟨l, r, b, t, n, f, none⟩ w).viewport
      = w.ctx.viewport ∧
    (static_from_matrices id vm pm none w pmf umf).viewport
      = w.ctx.viewport ∧
    (static_from_raw_orthographic id proj4 near far zoom pos up fwd
        none w).viewport = w.ctx.viewport ∧
    (static_from_raw_perspective id aspect fov near far zoom pos up fwd
        none w).viewport = w.ctx.viewport ∧
    (static_from_raw_orthographic id proj4 near far zoom pos up fwd
        none w).projection
      = generate_orthographic_matrix
          ⟨proj4.1, proj4.2.1, proj4.2.2.1, proj4.2.2.2, near, far,
           some ⟨0, 0, 0, 0⟩⟩ zoom ∧
    (static_from_raw_perspective id aspect fov near far zoom pos up fwd
        none w).projection
      = generate_perspective_matrix
          ⟨aspect, fov, near, far, some ⟨0, 0, 0, 0⟩⟩ zoom :=
  ⟨rfl, rfl, rfl, rfl, rfl, rfl, rfl⟩

/-- C4: `static_from_perspective` binds the perspective project/unproject
pair while computing its projection matrix with
`generate_orthographic_matrix` on the perspective-shaped descriptor. -/
theorem from_perspective_binds_perspective_methods_but_orthographic_matrix
    (id : Nat) (v : CameraData) (p : OrthographicProjectionData)
    (w : Window) :
    (static_from_perspective id v p w).projection
      = generate_orthographic_matrix p v.zoom ∧
    (static_from_perspective id v p w).projectMethod
      = some project_perspective ∧
    (static_from_perspective id v p w).unprojectMethod
      = some unproject_perspective :=
  ⟨rfl, rfl, rfl⟩

/-- C5: the code evaluated at the failing input — `project` on a camera
that does have a project method, given a 2-component coordinate, raises
`IndexError` from `world_coordinate[2]` instead of defaulting the third
component to 0 as the claim (and the method's own docstring, which admits
`Vec2` input) requires. -/
theorem project_two_component_input_raises_index_error :
    camA.project win0 [1, 2] = (.error .indexError, camA, win0) :=
  rfl

/-- C7: `use()` is idempotent — calling it twice leaves the window and
context state, in particular the four fields the claim names (current
camera, viewport, projection matrix, view matrix), identical to calling
it once. -/
theorem use_idempotent_on_context (c : Camera) (w : Window) :
    c.use (c.use w) = c.use w ∧
    (c.use (c.use w)).current_camera = (c.use w).current_camera ∧
    (c.use (c.use w)).ctx.viewport = (c.use w).ctx.viewport ∧
    (c.use (c.use w)).ctx.projection_matrix
      = (c.use w).ctx.projection_matrix ∧
    (c.use (c.use w)).ctx.view_matrix = (c.use w).ctx.view_matrix :=
  ⟨rfl, rfl, rfl, rfl, rfl⟩

/-- C8 counterexample: `win0` and `winQ` agree on all four fields the
claim allows (window current camera, context viewport, projection matrix,
view matrix) and on the abstract remaining state, yet `activate` — an
operation of `_StaticCamera` — produces observably different results on
them, because it reads a fifth field, the context's `current_camera`
slot.  So the class does read context state other than the four fields. -/
theorem activate_depends_on_fifth_context_field :
    (win0.current_camera = winQ.current_camera ∧
     win0.ctx.viewport = winQ.ctx.viewport ∧
     win0.ctx.projection_matrix = winQ.ctx.projection_matrix ∧
     win0.ctx.view_matrix = winQ.ctx.view_matrix ∧
     win0.other = winQ.other) ∧
    (camA.activate idBody win0).1.current_camera.id
      ≠ (camA.activate idBody winQ).1.current_camera.id :=
  ⟨⟨rfl, rfl, rfl, rfl, rfl⟩, by decide⟩

/-- C9: the camera's stored viewport, view matrix and projection matrix
are fixed for the lifetime of the object: running any sequence of its
methods (`use`, `activate` with any body, `project`, `unproject`) leaves
the camera record — in particular those three fields — exactly as
constructed. -/
theorem method_sequences_preserve_camera_fields
    (c : Camera) (w : Window) (ops : List CamOp) :
    (runOps (c, w) ops).1 = c ∧
    (runOps (c, w) ops).1.viewport = c.viewport ∧
    (runOps (c, w) ops).1.view = c.view ∧
    (runOps (c, w) ops).1.projection = c.projection := by
  have h := runOps_fst ops (c, w)
  exact ⟨h, by rw [h], by rw [h], by rw [h]⟩

/-- C10: `use()` writes the window's `current_camera` attribute (to the
camera itself) and leaves `window.ctx.current_camera` untouched, while
`activate()` restores whatever `window.ctx.current_camera` held;
moreover after `camB.use` on `win0` the two slots hold cameras with
different ids, so they are distinct fields. -/
theorem use_writes_window_slot_activate_reads_ctx_slot :
    (∀ (c : Camera) (w : Window),
       (c.use w).current_camera = c ∧
       (c.use w).ctx.current_camera = w.ctx.current_camera) ∧
    (∀ (A : Camera) (body : Body) (w : Window),
       (A.activate body w).1.current_camera = w.ctx.current_camera) ∧
    (camB.use win0).current_camera.id
      ≠ (camB.use win0).ctx.current_camera.id :=
  ⟨fun _ _ => ⟨rfl, rfl⟩, fun _ _ _ => rfl, by decide⟩

theorem mulVec_mul (A B : Mat4) (v : Vec4) :
    (Mat4.mul A B).mulVec v = A.mulVec (B.mulVec v) := by
  simp only [Mat4.mul, Mat4.mulVec, Vec4.mk.injEq]
  refine ⟨by ring, by ring, by ring, by ring⟩

theorem det_affine_diagonal (A B C Tx Ty Tz : ℚ) :
    (⟨A, 0, 0, Tx, 0, B, 0, Ty, 0, 0, C, Tz, 0, 0, 0, 1⟩ : Mat4).det
      = A * B * C := by
  simp only [Mat4.det, det3]
  ring

theorem inv_affine_diagonal_mulVec (A B C Tx Ty Tz : ℚ)
    (hA : A ≠ 0) (hB : B ≠ 0) (hC : C ≠ 0) (v : Vec4) :
    (Mat4.inv ⟨A, 0, 0, Tx, 0, B, 0, Ty, 0, 0, C, Tz, 0, 0, 0, 1⟩).mulVec v
      = ⟨(v.x - Tx * v.w) / A, (v.y - Ty * v.w) / B,
         (v.z - Tz * v.w) / C, v.w⟩ := by
  have hABC : A * B * C ≠ 0 := mul_ne_zero (mul_ne_zero hA hB) hC
  simp only [Mat4.inv, det_affine_diagonal, det3, Mat4.mulVec, Vec4.mk.injEq]
  refine ⟨?_, ?_, ?_, ?_⟩ <;>
    (field_simp [hA, hB, hC, hABC]; try ring)

theorem ortho_separable_round_trip (V P : Mat4) (A B C Tx Ty Tz : ℚ)
    (vp : Viewport)
    (hM : Mat4.mul P V
      = ⟨A, 0, 0, Tx, 0, B, 0, Ty, 0, 0, C, Tz, 0, 0, 0, 1⟩)
    (hA : A ≠ 0) (hB : B ≠ 0) (hC : C ≠ 0)
    (hw : (vp.w : ℚ) ≠ 0) (hh : (vp.h : ℚ) ≠ 0)
    (p : Vec3) (d : Option ℚ) :
    unproject_orthographic (project_orthographic p vp V P) vp V P d
      = ⟨p.x, p.y, (d.getD 0 - Tz) / C⟩ := by
  have hmv : ∀ v : Vec4, P.mulVec (V.mulVec v) = (Mat4.mul P V).mulVec v :=
    fun v => (mulVec_mul P V v).symm
  simp only [project_orthographic, unproject_orthographic, hmv, hM,
    inv_affine_diagonal_mulVec A B C Tx Ty Tz hA hB hC]
  simp only [Mat4.mulVec, Vec3.mk.injEq]
  refine ⟨?_, ?_, ?_⟩ <;>
    (field_simp [hA, hB, hC, hw, hh]; try ring)

theorem project_with_method (c : Camera) (f : ProjFnT)
    (hc : c.projectMethod = some f) (w : Window) (a b cz : ℚ) :
    c.project w [a, b, cz] =
      (.ok ((f ⟨a, b, cz⟩ c.viewport c.view c.projection).x,
            (f ⟨a, b, cz⟩ c.viewport c.view c.projection).y), c, w) := by
  unfold Camera.project
  rw [hc]
  rfl

theorem unproject_with_method (c : Camera) (g : UnprojFnT)
    (hc : c.unprojectMethod = some g) (w : Window) (sc : ℚ × ℚ)
    (d : Option ℚ) :
    c.unproject w sc d =
      (.ok ((g ⟨sc.1, sc.2⟩ c.viewport c.view c.projection d).x,
            (g ⟨sc.1, sc.2⟩ c.viewport c.view c.projection d).y,
            (g ⟨sc.1, sc.2⟩ c.viewport c.view c.projection d).z), c, w) := by
  unfold Camera.unproject
  rw [hc]

theorem ortho_default_pose_product (pos : Vec3) (l r b t n f zoom : ℚ)
    (vpo : Option Viewport) :
    Mat4.mul
      (generate_orthographic_matrix ⟨l, r, b, t, n, f, vpo⟩ zoom)
      (generate_view_matrix ⟨pos, ⟨0, 1, 0⟩, ⟨0, 0, -1⟩, zoom⟩)
    = ⟨2 / (r / zoom - l / zoom), 0, 0,
       2 / (r / zoom - l / zoom) * (-pos.x)
         + (-(r / zoom + l / zoom) / (r / zoom - l / zoom)),
       0, 2 / (t / zoom - b / zoom), 0,
       2 / (t / zoom - b / zoom) * (-pos.y)
         + (-(t / zoom + b / zoom) / (t / zoom - b / zoom)),
       0, 0, -2 / (f - n),
       -2 / (f - n) * (-pos.z) + (-(f + n) / (f - n)),
       0, 0, 0, 1⟩ := by
  simp only [generate_orthographic_matrix, generate_view_matrix,
    Vec3.cross, Vec3.dot, Mat4.mul, Mat4.mk.injEq]
  norm_num

/-- C6 amended: for a camera built by `static_from_orthographic` (hence
carrying the matching orthographic project/unproject pair) from a pose
with the default orientation (up +Y, forward -Z; any position, any
nondegenerate bounds, zoom and viewport), `unproject(project(p))`
reconstructs the first two components of `p` exactly whatever the depth
argument, and reconstructs all three when the appropriate depth — the
clip-space z of `p` — is supplied. -/
theorem ortho_round_trip_default_orientation
    (id : Nat) (pos : Vec3) (l r b t n f zoom : ℚ) (vx vy vw vh : ℤ)
    (win win2 : Window) (cam : Camera) (p : Vec3) (d : Option ℚ)
    (hcam : cam = static_from_orthographic id
        ⟨pos, ⟨0, 1, 0⟩, ⟨0, 0, -1⟩, zoom⟩
        ⟨l, r, b, t, n, f, some ⟨vx, vy, vw, vh⟩⟩ win)
    (hlr : r ≠ l) (hbt : t ≠ b) (hnf : f ≠ n) (hz : zoom ≠ 0)
    (hw : (vw : ℚ) ≠ 0) (hh : (vh : ℚ) ≠ 0) :
    ∃ sx sy wz,
      (cam.project win2 [p.x, p.y, p.z]).1 = .ok (sx, sy) ∧
      (cam.unproject win2 (sx, sy) d).1 = .ok (p.x, p.y, wz) ∧
      (cam.unproject win2 (sx, sy)
          (some ((cam.projection.mulVec
             (cam.view.mulVec ⟨p.x, p.y, p.z, 1⟩)).z))).1
        = .ok (p.x, p.y, p.z) := by
  subst hcam
  have hM := ortho_default_pose_product pos l r b t n f zoom
    (some ⟨vx, vy, vw, vh⟩)
  have hrl : r / zoom - l / zoom ≠ 0 := by
    rw [div_sub_div_same]; exact div_ne_zero (sub_ne_zero.mpr hlr) hz
  have htb : t / zoom - b / zoom ≠ 0 := by
    rw [div_sub_div_same]; exact div_ne_zero (sub_ne_zero.mpr hbt) hz
  have hA : (2 : ℚ) / (r / zoom - l / zoom) ≠ 0 :=
    div_ne_zero (by norm_num) hrl
  have hB : (2 : ℚ) / (t / zoom - b / zoom) ≠ 0 :=
    div_ne_zero (by norm_num) htb
  have hC : (-2 : ℚ) / (f - n) ≠ 0 :=
    div_ne_zero (by norm_num) (sub_ne_zero.mpr hnf)
  have hum : (static_from_orthographic id
      ⟨pos, ⟨0, 1, 0⟩, ⟨0, 0, -1⟩, zoom⟩
      ⟨l, r, b, t, n, f, some ⟨vx, vy, vw, vh⟩⟩ win).unprojectMethod
      = some unproject_orthographic := rfl
  have hvp : (static_from_orthographic id
      ⟨pos, ⟨0, 1, 0⟩, ⟨0, 0, -1⟩, zoom⟩
      ⟨l, r, b, t, n, f, some ⟨vx, vy, vw, vh⟩⟩ win).viewport
      = ⟨vx, vy, vw, vh⟩ := rfl
  have hV : (static_from_orthographic id
      ⟨pos, ⟨0, 1, 0⟩, ⟨0, 0, -1⟩, zoom⟩
      ⟨l, r, b, t, n, f, some ⟨vx, vy, vw, vh⟩⟩ win).view
      = generate_view_matrix ⟨pos, ⟨0, 1, 0⟩, ⟨0, 0, -1⟩, zoom⟩ := rfl
  have hP : (static_from_orthographic id
      ⟨pos, ⟨0, 1, 0⟩, ⟨0, 0, -1⟩, zoom⟩
      ⟨l, r, b, t, n, f, some ⟨vx, vy, vw, vh⟩⟩ win).projection
      = generate_orthographic_matrix
          ⟨l, r, b, t, n, f, some ⟨vx, vy, vw, vh⟩⟩ zoom := rfl
  refine ⟨(project_orthographic p ⟨vx, vy, vw, vh⟩
        (generate_view_matrix ⟨pos, ⟨0, 1, 0⟩, ⟨0, 0, -1⟩, zoom⟩)
        (generate_orthographic_matrix
          ⟨l, r, b, t, n, f, some ⟨vx, vy, vw, vh⟩⟩ zoom)).x,
      (project_orthographic p ⟨vx, vy, vw, vh⟩
        (generate_view_matrix ⟨pos, ⟨0, 1, 0⟩, ⟨0, 0, -1⟩, zoom⟩)
        (generate_orthographic_matrix
          ⟨l, r, b, t, n, f, some ⟨vx, vy, vw, vh⟩⟩ zoom)).y,
      (d.getD 0 - (-2 / (f - n) * (-pos.z) + (-(f + n) / (f - n))))
        / (-2 / (f - n)),
      rfl, ?_, ?_⟩
  · simp only [unproject_with_method _ _ hum, hvp, hV, hP]
    rw [ortho_separable_round_trip _ _ _ _ _ _ _ _ _ hM hA hB hC hw hh p d]
  · simp only [unproject_with_method _ _ hum, hvp, hV, hP]
    rw [ortho_separable_round_trip _ _ _ _ _ _ _ _ _ hM hA hB hC hw hh p _]
    have hdz : ((generate_orthographic_matrix
          ⟨l, r, b, t, n, f, some ⟨vx, vy, vw, vh⟩⟩ zoom).mulVec
        ((generate_view_matrix
          ⟨pos, ⟨0, 1, 0⟩, ⟨0, 0, -1⟩, zoom⟩).mulVec ⟨p.x, p.y, p.z, 1⟩)).z
        = -2 / (f - n) * p.z
          + (-2 / (f - n) * (-pos.z) + (-(f + n) / (f - n))) := by
      rw [← mulVec_mul, hM]
      simp only [Mat4.mulVec]
      ring
    rw [Option.getD_some, hdz, add_sub_cancel_right,
      mul_div_cancel_left₀ _ hC]

/-- C6 counterexample: `camR` is built by `static_from_orthographic` with
the matching orthographic project/unproject pair, yet for the world point
`(5, 0, 0)` the round trip `unproject(project(p))` (default depth)
returns `(0, 0, 0)`: the first component differs from `p`'s. -/
theorem ortho_round_trip_fails_for_rotated_pose :
    (camR.project win0 [5, 0, 0]).1 = .ok (1, 1) ∧
    (camR.unproject win0 (1, 1) none).1 = .ok (0, 0, 0) ∧
    (0 : ℚ) ≠ (5 : ℚ) := by
  refine ⟨?_, ?_, by norm_num⟩
  · norm_num [camR, static_from_orthographic, mkStaticCamera, Camera.project,
      project_orthographic, generate_view_matrix, generate_orthographic_matrix,
      Vec3.cross, Vec3.dot, Mat4.mul, Mat4.mulVec, win0, Option.getD,
      List.get?]
  · norm_num [camR, static_from_orthographic, mkStaticCamera, Camera.unproject,
      unproject_orthographic, generate_view_matrix, generate_orthographic_matrix,
      Vec3.cross, Vec3.dot, Mat4.mul, Mat4.mulVec, Mat4.inv, Mat4.det, det3,
      win0, Option.getD]

theorem ortho_round_trip_default_orientation_witness :
    ∃ sx sy wz,
      ((static_from_orthographic 0 ⟨⟨0, 0, 0⟩, ⟨0, 1, 0⟩, ⟨0, 0, -1⟩, 1⟩
          ⟨0, 800, 0, 600, -100, 100, some ⟨0, 0, 800, 600⟩⟩ win0).project
        win0 [(400 : ℚ), 300, 5]).1 = .ok (sx, sy) ∧
      ((static_from_orthographic 0 ⟨⟨0, 0, 0⟩, ⟨0, 1, 0⟩, ⟨0, 0, -1⟩, 1⟩
          ⟨0, 800, 0, 600, -100, 100, some ⟨0, 0, 800, 600⟩⟩ win0).unproject
        win0 (sx, sy) none).1 = .ok (400, 300, wz) ∧
      ((static_from_orthographic 0 ⟨⟨0, 0, 0⟩, ⟨0, 1, 0⟩, ⟨0, 0, -1⟩, 1⟩
          ⟨0, 800, 0, 600, -100, 100, some ⟨0, 0, 800, 600⟩⟩ win0).unproject
        win0 (sx, sy)
        (some (((static_from_orthographic 0
            ⟨⟨0, 0, 0⟩, ⟨0, 1, 0⟩, ⟨0, 0, -1⟩, 1⟩
            ⟨0, 800, 0, 600, -100, 100, some ⟨0, 0, 800, 600⟩⟩
            win0).projection.mulVec
          ((static_from_orthographic 0 ⟨⟨0, 0, 0⟩, ⟨0, 1, 0⟩, ⟨0, 0, -1⟩, 1⟩
            ⟨0, 800, 0, 600, -100, 100, some ⟨0, 0, 800, 600⟩⟩
            win0).view.mulVec ⟨400, 300, 5, 1⟩)).z))).1
        = .ok (400, 300, 5) :=
  ortho_round_trip_default_orientation 0 ⟨0, 0, 0⟩ 0 800 0 600 (-100) 100 1
    0 0 800 600 win0 win0 _ ⟨400, 300, 5⟩ none rfl
    (by norm_num) (by norm_num) (by norm_num) (by norm_num)
    (by norm_num) (by norm_num)

/-- C8 amended: `use()` writes exactly the four named fields — the window
current-camera reference (to this instance), the context viewport,
projection matrix and view matrix (to the camera's stored values) — and
preserves the context current-camera slot and all remaining state;
`project` and `unproject` return the window untouched; and the only
additional context state any operation touches is the context
current-camera slot, which `activate()` reads (its result is the body's
exit state overwritten by one `use` of that slot's camera) but never
writes beyond what its body does. -/
theorem static_camera_frame_conditions
    (c : Camera) (w : Window) (body : Body) (wc : List ℚ)
    (sc : ℚ × ℚ) (d : Option ℚ) :
    ((c.use w).current_camera = c ∧
     (c.use w).ctx.viewport = c.viewport ∧
     (c.use w).ctx.projection_matrix = c.projection ∧
     (c.use w).ctx.view_matrix = c.view ∧
     (c.use w).ctx.current_camera = w.ctx.current_camera ∧
     (c.use w).other = w.other) ∧
    ((c.project w wc).2.2 = w ∧ (c.unproject w sc d).2.2 = w) ∧
    ((c.activate body w).1 = (w.ctx.current_camera).use (body (c.use w)).1 ∧
     (c.activate body w).1.ctx.current_camera
       = (body (c.use w)).1.ctx.current_camera) :=
  ⟨⟨rfl, rfl, rfl, rfl, rfl, rfl⟩,
   ⟨(project_preserves_camera_and_window c w wc).2,
    (unproject_preserves_camera_and_window c w sc d).2⟩,
   rfl, rfl⟩
